import Mathlib

/- Verification development for the TLS protocol-version negotiation and
   downgrade-detection subsystem of NSS, as exercised by
   src/external_tests/ssl_gtest/ssl_version_unittest.cc and described in the
   design document.  The ssl library implementation itself is not under src/
   (only its tests are), so the negotiation, sentinel, fallback and
   renegotiation logic below is modelled from the design document; wherever
   the design documents wording and the unit tests disagree on a concrete
   outcome, the expectations pinned by the tests are taken as authoritative
   and noted on the definition. -/

namespace NssVersion

/- Protocol version constants, named as in sslproto.h.  Versions are an
   ordered scalar: 3_0 < TLS_1_0 < TLS_1_1 < TLS_1_2 < TLS_1_3. -/

def SSL_LIBRARY_VERSION_3_0 : Nat := 0x0300

def SSL_LIBRARY_VERSION_TLS_1_0 : Nat := 0x0301

def SSL_LIBRARY_VERSION_TLS_1_1 : Nat := 0x0302

def SSL_LIBRARY_VERSION_TLS_1_2 : Nat := 0x0303

def SSL_LIBRARY_VERSION_TLS_1_3 : Nat := 0x0304

/-- Modelled from the spec: a version field that does not correspond to any
known ProtocolVersion is treated as unsupported.  The known versions are the
five named protocol versions.  The bogus DTLS 1.1 wire value used by
TestDtlsVersion11 (0xfefe) is not among them. -/
def isKnownVersion (v : Nat) : Bool :=
  v == SSL_LIBRARY_VERSION_3_0 || v == SSL_LIBRARY_VERSION_TLS_1_0 ||
  v == SSL_LIBRARY_VERSION_TLS_1_1 || v == SSL_LIBRARY_VERSION_TLS_1_2 ||
  v == SSL_LIBRARY_VERSION_TLS_1_3

/-- Modelled from the spec: the sentinel mechanism is performed by clients
that are configured for TLS 1.2 or newer; clients whose configured maximum is
TLS 1.1 or below predate the mechanism (TestDowngradeDetectionToTls10 shows a
client with maximum TLS 1.1 skipping the check, TestDowngradeDetectionToTls11
and ...ToTls12 show clients with maximum TLS 1.3 performing it). -/
def sentinelAwareThreshold : Nat := SSL_LIBRARY_VERSION_TLS_1_2

/-- An inclusive [min, max] supported-version interval, as SSLVersionRange. -/
structure VersionRange where
  min : Nat
  max : Nat
deriving DecidableEq, Repr

/-- A well-formed range: ordered, with both endpoints known versions. -/
def validRange (r : VersionRange) : Bool :=
  decide (r.min ≤ r.max) && isKnownVersion r.min && isKnownVersion r.max

/-- Membership of a version in a range. -/
def inRange (r : VersionRange) (v : Nat) : Prop :=
  r.min ≤ v ∧ v ≤ r.max

inductive Role where
  | Client
  | Server
deriving DecidableEq, Repr

/-- Failure kinds of the version-negotiation subsystem (design document
section 7). -/
inductive NegotiationFailure where
  | IncompatibleRange
  | UnsupportedVersion
  | NoCipherOverlap
  | DowngradeDetected
  | RenegotiationNotAllowed
  | IllegalParameter
deriving DecidableEq, Repr

/-- Error codes observable at an endpoint, named as the SSL error codes the
unit tests assert on.  There is no distinct downgrade-alert code: a detected
downgrade surfaces as SSL_ERROR_RX_MALFORMED_SERVER_HELLO. -/
inductive SSLError where
  | SSL_ERROR_RX_MALFORMED_SERVER_HELLO
  | SSL_ERROR_NO_CYPHER_OVERLAP
  | SSL_ERROR_UNSUPPORTED_VERSION
  | SSL_ERROR_BAD_HANDSHAKE_HASH_VALUE
  | SSL_ERROR_DECRYPT_ERROR_ALERT
  | SSL_ERROR_ILLEGAL_PARAMETER_ALERT
  | SSL_ERROR_RENEGOTIATION_NOT_ALLOWED
  | SSL_ERROR_HANDSHAKE_UNEXPECTED_ALERT
deriving DecidableEq, Repr

inductive SentinelVerdict where
  | Absent
  | Matched
  | Mismatched
deriving DecidableEq, Repr

inductive RenegotiationState where
  | NotNegotiated
  | InitialHandshakeComplete
  | RenegotiationInProgress
deriving DecidableEq, Repr

/-- Per-endpoint configuration: the configured version range and the optional
out-of-band fallback-detection ceiling set by SSL_SetDowngradeCheckVersion. -/
structure EndpointConfig where
  range : VersionRange
  downgradeCheckVersion : Option Nat
deriving DecidableEq, Repr

/-- Connection-scoped mutable aggregate (design document section 3). -/
structure HandshakeContext where
  range : VersionRange
  role : Role
  negotiated : Option Nat
  renegState : RenegotiationState
deriving DecidableEq, Repr

/-- Modelled from the spec: configure_version_range, the configuration-time
guard behind SSL_VersionRangeSet (its implementation is not under src/; its
contract is pinned by DisallowSSLv3HelloWithTLSv13Enabled).  A range spanning
both legacy SSL 3.0 and TLS 1.3 is rejected with IncompatibleRange for either
role, before any handshake begins. -/
def configureVersionRange (role : Role) (r : VersionRange)
    (fallbackCeiling : Option Nat) : Except NegotiationFailure VersionRange :=
  if r.min ≤ SSL_LIBRARY_VERSION_3_0 ∧ SSL_LIBRARY_VERSION_TLS_1_3 ≤ r.max then
    .error .IncompatibleRange
  else
    .ok r

/-- Modelled from the spec: the server side of the VersionNegotiator.  It
selects the highest version of its own range not exceeding the offered
version; an unknown offered version is UnsupportedVersion, a known offered
version below the whole range is NoCipherOverlap. -/
def serverSelectVersion (serverRange : VersionRange) (offered : Nat) :
    Except NegotiationFailure Nat :=
  if isKnownVersion offered = false then .error .UnsupportedVersion
  else if offered < serverRange.min then .error .NoCipherOverlap
  else .ok (min serverRange.max offered)

/-- Modelled from the spec: the client side of the VersionNegotiator.  The
client accepts the server-selected version exactly when it is a known version
inside its own configured range, and fails with UnsupportedVersion
otherwise. -/
def clientAcceptVersion (clientRange : VersionRange) (selected : Nat) :
    Except NegotiationFailure Nat :=
  if isKnownVersion selected = true ∧ clientRange.min ≤ selected ∧
      selected ≤ clientRange.max then
    .ok selected
  else .error .UnsupportedVersion

/-- Modelled from the spec: one negotiation step against a HandshakeContext.
On success the negotiated version is written into the context exactly once;
on failure the context is returned entirely unmodified. -/
def negotiateStep (ctx : HandshakeContext) (peerVersionField : Nat) :
    HandshakeContext × Option NegotiationFailure :=
  let outcome :=
    match ctx.role with
    | .Server => serverSelectVersion ctx.range peerVersionField
    | .Client => clientAcceptVersion ctx.range peerVersionField
  match outcome with
  | .ok v => ({ ctx with negotiated := some v }, none)
  | .error e => (ctx, some e)

/-- Modelled from the spec: DowngradeSentinel.encode.  When the negotiated
version is lower than the true maximum of the server (and the maximum is at
least TLS 1.1, so the server is actually capable of something higher), the
server embeds in the tail of its random nonce the sentinel pattern naming its
true maximum; otherwise the tail is ordinary random bytes (none). -/
def downgradeSentinelEncode (trueMax negotiated : Nat) : Option Nat :=
  if negotiated < trueMax ∧ SSL_LIBRARY_VERSION_TLS_1_1 ≤ trueMax then
    some trueMax
  else none

/-- Modelled from the spec: DowngradeSentinel.check, performed by the client
on the tail of the server random.  A sentinel naming a version strictly above
the negotiated one that the client range itself includes is conclusive
evidence of a downgrade: verdict Mismatched. -/
def downgradeSentinelCheck (clientRange : VersionRange) (negotiated : Nat)
    (randomTail : Option Nat) : SentinelVerdict :=
  match randomTail with
  | none => .Absent
  | some s =>
    if negotiated < s ∧ clientRange.min ≤ s ∧ s ≤ clientRange.max then
      .Mismatched
    else .Matched

/-- Modelled from the spec: the independent anti-fallback mechanism.  The
check fires when a fallback-detection ceiling is configured, the negotiated
version is strictly below it, and the peer range could have reached the
ceiling. -/
def fallbackCeilingViolated (ceiling : Option Nat) (negotiated : Nat)
    (peerRange : VersionRange) : Bool :=
  match ceiling with
  | none => false
  | some c => decide (negotiated < c) && decide (c ≤ peerRange.max)

/-- Outcome of one full connection attempt, as observed by the tests:
either both sides connect at a version, or the client aborts while
processing the ServerHello, or both sides record an error code. -/
inductive ConnectResult where
  | connected (version : Nat)
  | clientAbort (clientError : SSLError)
  | bothAbort (clientError serverError : SSLError)
deriving DecidableEq, Repr

/-- Modelled from the spec: one full initial handshake between a client and a
server, with an optional adversarial in-flight rewrite of the version field
of the ClientHello (the TlsInspectorClientHelloVersionSetter of the tests).
The client offers the maximum of its range; the server selects; the client
validates the selection, then performs the sentinel check (only when its
configured maximum reaches the sentinel-aware threshold), then the
fallback-ceiling check; a surviving rewritten handshake later dies on the
transcript-hash check of the server.  Concrete error codes follow the
unit tests: an unknown offered version yields
SSL_ERROR_UNSUPPORTED_VERSION on the server and, through the resulting
alert, SSL_ERROR_NO_CYPHER_OVERLAP on the client (deliberate in
ssl3_HandleAlert per the comment in TestDtlsVersion11); a detected downgrade
yields SSL_ERROR_RX_MALFORMED_SERVER_HELLO on the client; a transcript
mismatch yields SSL_ERROR_BAD_HANDSHAKE_HASH_VALUE on the server and
SSL_ERROR_DECRYPT_ERROR_ALERT on the client. -/
def connectWithRewrite (client server : EndpointConfig)
    (rewriteTo : Option Nat) : ConnectResult :=
  let offered := match rewriteTo with
    | some v => v
    | none => client.range.max
  match serverSelectVersion server.range offered with
  | .error .NoCipherOverlap =>
      .bothAbort .SSL_ERROR_NO_CYPHER_OVERLAP .SSL_ERROR_NO_CYPHER_OVERLAP
  | .error _ =>
      .bothAbort .SSL_ERROR_NO_CYPHER_OVERLAP .SSL_ERROR_UNSUPPORTED_VERSION
  | .ok negotiated =>
    let sentinel := downgradeSentinelEncode server.range.max negotiated
    match clientAcceptVersion client.range negotiated with
    | .error _ => .clientAbort .SSL_ERROR_UNSUPPORTED_VERSION
    | .ok v =>
      if sentinelAwareThreshold ≤ client.range.max ∧
          downgradeSentinelCheck client.range v sentinel = .Mismatched then
        .clientAbort .SSL_ERROR_RX_MALFORMED_SERVER_HELLO
      else if fallbackCeilingViolated client.downgradeCheckVersion v
          server.range then
        .clientAbort .SSL_ERROR_RX_MALFORMED_SERVER_HELLO
      else if offered ≠ client.range.max then
        .bothAbort .SSL_ERROR_DECRYPT_ERROR_ALERT
          .SSL_ERROR_BAD_HANDSHAKE_HASH_VALUE
      else
        .connected v

/-- Modelled from the spec: request_renegotiation, the locally initiated
rehandshake API (SSL_ReHandshake).  The second component counts network
messages emitted by the call: a forbidden attempt fails synchronously with
RenegotiationNotAllowed before any network activity (0 messages), and no
renegotiation state is entered. -/
def requestRenegotiation (ctx : HandshakeContext) :
    Except NegotiationFailure HandshakeContext × Nat :=
  match ctx.negotiated with
  | none => (.error .RenegotiationNotAllowed, 0)
  | some v =>
    if SSL_LIBRARY_VERSION_TLS_1_3 ≤ v then
      (.error .RenegotiationNotAllowed, 0)
    else
      (.ok { ctx with renegState := .RenegotiationInProgress }, 1)

/-- Modelled from the spec: guard_incoming_renegotiation, the peer-initiated
path.  The boolean component records whether a fatal alert is sent to the
peer: a renegotiation attempt arriving on a connection at TLS 1.3 or above is
rejected with a fatal alert and RenegotiationNotAllowed. -/
def guardIncomingRenegotiation (ctx : HandshakeContext) :
    Except NegotiationFailure HandshakeContext × Bool :=
  match ctx.negotiated with
  | none => (.error .RenegotiationNotAllowed, true)
  | some v =>
    if SSL_LIBRARY_VERSION_TLS_1_3 ≤ v then
      (.error .RenegotiationNotAllowed, true)
    else
      (.ok { ctx with renegState := .RenegotiationInProgress }, false)

/-- Outcome of a renegotiation handshake on an established connection. -/
inductive RenegotiateResult where
  | renegotiated (version : Nat)
  | renegFailed (clientError serverError : SSLError)
deriving DecidableEq, Repr

/-- Modelled from the spec: a permitted renegotiation (original version below
TLS 1.3) re-runs the full version negotiation against the new offer, the
client again offering the maximum of its (possibly reconfigured) range.
Concrete outcomes follow ConnectTls10AndServerRenegotiateHigher and
ConnectTls10AndClientRenegotiateHigher, which pin identical error codes for
both initiation directions: a renegotiation resolving to TLS 1.3 or higher is
rejected with SSL_ERROR_RENEGOTIATION_NOT_ALLOWED on the server while the
client sees SSL_ERROR_HANDSHAKE_UNEXPECTED_ALERT; one resolving to a higher
version still below TLS 1.3 fails with SSL_ERROR_UNSUPPORTED_VERSION on the
client and a fatal illegal-parameter alert
(SSL_ERROR_ILLEGAL_PARAMETER_ALERT) on the server; one resolving to the same
or a lower version succeeds. -/
def renegotiateHandshake (origVersion : Nat)
    (clientRange serverRange : VersionRange) : RenegotiateResult :=
  match serverSelectVersion serverRange clientRange.max with
  | .error .NoCipherOverlap =>
      .renegFailed .SSL_ERROR_NO_CYPHER_OVERLAP .SSL_ERROR_NO_CYPHER_OVERLAP
  | .error _ =>
      .renegFailed .SSL_ERROR_NO_CYPHER_OVERLAP .SSL_ERROR_UNSUPPORTED_VERSION
  | .ok newVersion =>
    if SSL_LIBRARY_VERSION_TLS_1_3 ≤ newVersion then
      .renegFailed .SSL_ERROR_HANDSHAKE_UNEXPECTED_ALERT
        .SSL_ERROR_RENEGOTIATION_NOT_ALLOWED
    else if origVersion < newVersion then
      .renegFailed .SSL_ERROR_UNSUPPORTED_VERSION
        .SSL_ERROR_ILLEGAL_PARAMETER_ALERT
    else
      .renegotiated newVersion

/- Helper lemmas. -/

theorem isKnown_iff (v : Nat) : isKnownVersion v = true ↔
    v = SSL_LIBRARY_VERSION_3_0 ∨ v = SSL_LIBRARY_VERSION_TLS_1_0 ∨
    v = SSL_LIBRARY_VERSION_TLS_1_1 ∨ v = SSL_LIBRARY_VERSION_TLS_1_2 ∨
    v = SSL_LIBRARY_VERSION_TLS_1_3 := by
  simp [isKnownVersion, Bool.or_eq_true, or_assoc]

theorem validRange_spec (r : VersionRange) (h : validRange r = true) :
    r.min ≤ r.max ∧ isKnownVersion r.min = true ∧
      isKnownVersion r.max = true := by
  simpa [validRange, and_assoc] using h

theorem known_above_tls12 (v : Nat) (h : isKnownVersion v = true)
    (hgt : SSL_LIBRARY_VERSION_TLS_1_2 < v) :
    v = SSL_LIBRARY_VERSION_TLS_1_3 := by
  have h5 := (isKnown_iff v).mp h
  simp only [SSL_LIBRARY_VERSION_3_0, SSL_LIBRARY_VERSION_TLS_1_0,
    SSL_LIBRARY_VERSION_TLS_1_1, SSL_LIBRARY_VERSION_TLS_1_2,
    SSL_LIBRARY_VERSION_TLS_1_3] at h5 hgt ⊢
  rcases h5 with h5 | h5 | h5 | h5 | h5 <;> omega

theorem known_above_tls10 (v : Nat) (h : isKnownVersion v = true)
    (hgt : SSL_LIBRARY_VERSION_TLS_1_0 < v) :
    SSL_LIBRARY_VERSION_TLS_1_1 ≤ v := by
  have h5 := (isKnown_iff v).mp h
  simp only [SSL_LIBRARY_VERSION_3_0, SSL_LIBRARY_VERSION_TLS_1_0,
    SSL_LIBRARY_VERSION_TLS_1_1, SSL_LIBRARY_VERSION_TLS_1_2,
    SSL_LIBRARY_VERSION_TLS_1_3] at h5 hgt ⊢
  rcases h5 with h5 | h5 | h5 | h5 | h5 <;> omega

theorem serverSelect_ok (sr : VersionRange) (offered : Nat)
    (hk : isKnownVersion offered = true) (hge : sr.min ≤ offered) :
    serverSelectVersion sr offered = .ok (min sr.max offered) := by
  unfold serverSelectVersion
  rw [hk]
  simp [Nat.not_lt.mpr hge]

theorem serverSelect_low (sr : VersionRange) (offered : Nat)
    (hk : isKnownVersion offered = true) (hlt : offered < sr.min) :
    serverSelectVersion sr offered = .error .NoCipherOverlap := by
  unfold serverSelectVersion
  rw [hk]
  simp [hlt]

theorem clientAccept_ok (cr : VersionRange) (v : Nat)
    (hk : isKnownVersion v = true) (hlo : cr.min ≤ v) (hhi : v ≤ cr.max) :
    clientAcceptVersion cr v = .ok v := by
  unfold clientAcceptVersion
  rw [if_pos ⟨hk, hlo, hhi⟩]

theorem clientAccept_out (cr : VersionRange) (v : Nat)
    (h : ¬ (isKnownVersion v = true ∧ cr.min ≤ v ∧ v ≤ cr.max)) :
    clientAcceptVersion cr v = .error .UnsupportedVersion := by
  unfold clientAcceptVersion
  rw [if_neg h]

/- Reduction lemmas for the end-to-end connection model. -/

theorem connect_some_reduces (client server : EndpointConfig) (v w : Nat)
    (hsel : serverSelectVersion server.range v = .ok w)
    (hacc : clientAcceptVersion client.range w = .ok w) :
    connectWithRewrite client server (some v) =
      (if sentinelAwareThreshold ≤ client.range.max ∧
          downgradeSentinelCheck client.range w
            (downgradeSentinelEncode server.range.max w) =
            .Mismatched then
        .clientAbort .SSL_ERROR_RX_MALFORMED_SERVER_HELLO
      else if fallbackCeilingViolated client.downgradeCheckVersion w
          server.range then
        .clientAbort .SSL_ERROR_RX_MALFORMED_SERVER_HELLO
      else if v ≠ client.range.max then
        .bothAbort .SSL_ERROR_DECRYPT_ERROR_ALERT
          .SSL_ERROR_BAD_HANDSHAKE_HASH_VALUE
      else
        .connected w) := by
  unfold connectWithRewrite
  simp only [hsel, hacc]

theorem connect_none_reduces (client server : EndpointConfig) (w : Nat)
    (hsel : serverSelectVersion server.range client.range.max = .ok w)
    (hacc : clientAcceptVersion client.range w = .ok w) :
    connectWithRewrite client server none =
      (if sentinelAwareThreshold ≤ client.range.max ∧
          downgradeSentinelCheck client.range w
            (downgradeSentinelEncode server.range.max w) =
            .Mismatched then
        .clientAbort .SSL_ERROR_RX_MALFORMED_SERVER_HELLO
      else if fallbackCeilingViolated client.downgradeCheckVersion w
          server.range then
        .clientAbort .SSL_ERROR_RX_MALFORMED_SERVER_HELLO
      else
        .connected w) := by
  unfold connectWithRewrite
  simp only [hsel, hacc]
  simp

/-- An honest connection (the server selected the highest common version and
embedded the sentinel honestly) never produces a Mismatched verdict. -/
theorem honest_sentinel_ok (cr sr : VersionRange) :
    downgradeSentinelCheck cr (min sr.max cr.max)
      (downgradeSentinelEncode sr.max (min sr.max cr.max)) ≠
      SentinelVerdict.Mismatched := by
  unfold downgradeSentinelEncode
  by_cases hC : min sr.max cr.max < sr.max ∧
      SSL_LIBRARY_VERSION_TLS_1_1 ≤ sr.max
  · rw [if_pos hC]
    simp only [downgradeSentinelCheck]
    rw [if_neg (by omega)]
    simp
  · rw [if_neg hC]
    simp only [downgradeSentinelCheck]
    simp

/- Claim theorems. -/

/-- C1: if an adversary rewrites the offered version field in flight to an
intermediate supported version that is at least the sentinel-aware threshold
and strictly below the true maximum of both endpoints, the client detects the
downgrade via the sentinel in the server random and aborts, and the failure
surfaces as the malformed-server-hello validation error, not as any distinct
downgrade or version-mismatch alert. -/
theorem downgrade_to_intermediate_detected (client server : EndpointConfig)
    (v : Nat)
    (hcv : validRange client.range = true) (hsv : validRange server.range = true)
    (hk : isKnownVersion v = true)
    (hth : sentinelAwareThreshold ≤ v)
    (hcmin : client.range.min ≤ v) (hsmin : server.range.min ≤ v)
    (hcmax : v < client.range.max) (hsmax : v < server.range.max) :
    connectWithRewrite client server (some v) =
      .clientAbort .SSL_ERROR_RX_MALFORMED_SERVER_HELLO := by
  obtain ⟨hcr, hcmink, hcmaxk⟩ := validRange_spec _ hcv
  obtain ⟨hsr, hsmink, hsmaxk⟩ := validRange_spec _ hsv
  simp only [sentinelAwareThreshold] at hth
  have hc13 : client.range.max = SSL_LIBRARY_VERSION_TLS_1_3 :=
    known_above_tls12 _ hcmaxk (by omega)
  have hs13 : server.range.max = SSL_LIBRARY_VERSION_TLS_1_3 :=
    known_above_tls12 _ hsmaxk (by omega)
  have hsel : serverSelectVersion server.range v = .ok v := by
    rw [serverSelect_ok server.range v hk hsmin,
      Nat.min_eq_right (Nat.le_of_lt hsmax)]
  have hacc : clientAcceptVersion client.range v = .ok v :=
    clientAccept_ok _ _ hk hcmin (Nat.le_of_lt hcmax)
  have henc : downgradeSentinelEncode server.range.max v =
      some server.range.max := by
    unfold downgradeSentinelEncode
    exact if_pos ⟨hsmax, by rw [hs13]; decide⟩
  have hgate : sentinelAwareThreshold ≤ client.range.max := by
    simp only [sentinelAwareThreshold]
    omega
  have hcheck : downgradeSentinelCheck client.range v
      (some server.range.max) = .Mismatched := by
    simp only [downgradeSentinelCheck]
    exact if_pos ⟨hsmax, by omega, by omega⟩
  rw [connect_some_reduces client server v v hsel hacc, henc,
    if_pos ⟨hgate, hcheck⟩]

/-- C1 witness: the TestDowngradeDetectionToTls12 scenario, both endpoints
configured for [TLS 1.2, TLS 1.3] and the offer rewritten to TLS 1.2. -/
theorem downgrade_to_intermediate_detected_witness :
    connectWithRewrite
        ⟨⟨SSL_LIBRARY_VERSION_TLS_1_2, SSL_LIBRARY_VERSION_TLS_1_3⟩, none⟩
        ⟨⟨SSL_LIBRARY_VERSION_TLS_1_2, SSL_LIBRARY_VERSION_TLS_1_3⟩, none⟩
        (some SSL_LIBRARY_VERSION_TLS_1_2) =
      .clientAbort .SSL_ERROR_RX_MALFORMED_SERVER_HELLO :=
  downgrade_to_intermediate_detected _ _ _ (by decide) (by decide) (by decide)
    (by decide) (by decide) (by decide) (by decide) (by decide)

/-- C2: on a connection whose negotiated version is TLS 1.3 or higher, a
locally initiated rehandshake fails synchronously with
RenegotiationNotAllowed while emitting zero network messages, and a
peer-initiated renegotiation attempt is rejected with a fatal alert (the
boolean component) and RenegotiationNotAllowed; both paths return an error
and no successor context, so the connection never enters a renegotiation
state. -/
theorem tls13_forbids_renegotiation (ctx : HandshakeContext) (v : Nat)
    (hneg : ctx.negotiated = some v)
    (h13 : SSL_LIBRARY_VERSION_TLS_1_3 ≤ v) :
    requestRenegotiation ctx = (.error .RenegotiationNotAllowed, 0) ∧
    guardIncomingRenegotiation ctx =
      (.error .RenegotiationNotAllowed, true) := by
  unfold requestRenegotiation guardIncomingRenegotiation
  rw [hneg]
  simp [h13]

/-- C2 witness: the Tls13RejectsRehandshake scenario, a context negotiated at
TLS 1.3 from range [TLS 1.1, TLS 1.3]. -/
theorem tls13_forbids_renegotiation_witness :
    requestRenegotiation ⟨⟨SSL_LIBRARY_VERSION_TLS_1_1,
        SSL_LIBRARY_VERSION_TLS_1_3⟩, .Client,
        some SSL_LIBRARY_VERSION_TLS_1_3, .InitialHandshakeComplete⟩ =
      (.error .RenegotiationNotAllowed, 0) ∧
    guardIncomingRenegotiation ⟨⟨SSL_LIBRARY_VERSION_TLS_1_1,
        SSL_LIBRARY_VERSION_TLS_1_3⟩, .Client,
        some SSL_LIBRARY_VERSION_TLS_1_3, .InitialHandshakeComplete⟩ =
      (.error .RenegotiationNotAllowed, true) :=
  tls13_forbids_renegotiation _ _ rfl (by decide)

/-- C3: configuring a VersionRange whose minimum is legacy SSL 3.0 or lower
and whose maximum is TLS 1.3 or higher fails at configuration time with
IncompatibleRange, for either role and any fallback ceiling, so such a range
never reaches negotiation. -/
theorem incompatible_range_rejected (role : Role) (r : VersionRange)
    (ceiling : Option Nat)
    (hmin : r.min ≤ SSL_LIBRARY_VERSION_3_0)
    (hmax : SSL_LIBRARY_VERSION_TLS_1_3 ≤ r.max) :
    configureVersionRange role r ceiling = .error .IncompatibleRange := by
  unfold configureVersionRange
  rw [if_pos ⟨hmin, hmax⟩]

/-- C3 witness: the DisallowSSLv3HelloWithTLSv13Enabled scenario, the range
[SSL 3.0, TLS 1.3] rejected for the Client role and for the Server role. -/
theorem incompatible_range_rejected_witness :
    configureVersionRange .Client
        ⟨SSL_LIBRARY_VERSION_3_0, SSL_LIBRARY_VERSION_TLS_1_3⟩ none =
      .error .IncompatibleRange ∧
    configureVersionRange .Server
        ⟨SSL_LIBRARY_VERSION_3_0, SSL_LIBRARY_VERSION_TLS_1_3⟩ none =
      .error .IncompatibleRange :=
  ⟨incompatible_range_rejected _ _ _ (by decide) (by decide),
   incompatible_range_rejected _ _ _ (by decide) (by decide)⟩

/-- C4 counterexample: a client negotiated down to TLS 1.1 does perform the
sentinel check.  In the TestDowngradeDetectionToTls11 scenario (both sides
configured [TLS 1.0, TLS 1.3], offer rewritten to TLS 1.1, so the negotiated
version is TLS 1.1), the connection fails with the sentinel-detected
malformed-server-hello error on the client, not with the server-side
handshake-hash failure class the claim requires for every client negotiated
down to TLS 1.1 or below. -/
theorem tls11_downgrade_sentinel_detected_cex :
    connectWithRewrite
        ⟨⟨SSL_LIBRARY_VERSION_TLS_1_0, SSL_LIBRARY_VERSION_TLS_1_3⟩, none⟩
        ⟨⟨SSL_LIBRARY_VERSION_TLS_1_0, SSL_LIBRARY_VERSION_TLS_1_3⟩, none⟩
        (some SSL_LIBRARY_VERSION_TLS_1_1) =
      .clientAbort .SSL_ERROR_RX_MALFORMED_SERVER_HELLO ∧
    connectWithRewrite
        ⟨⟨SSL_LIBRARY_VERSION_TLS_1_0, SSL_LIBRARY_VERSION_TLS_1_3⟩, none⟩
        ⟨⟨SSL_LIBRARY_VERSION_TLS_1_0, SSL_LIBRARY_VERSION_TLS_1_3⟩, none⟩
        (some SSL_LIBRARY_VERSION_TLS_1_1) ≠
      .bothAbort .SSL_ERROR_DECRYPT_ERROR_ALERT
        .SSL_ERROR_BAD_HANDSHAKE_HASH_VALUE := by
  decide

/-- C4 amended: it is the clients whose configured maximum version is TLS 1.1
or below (not the clients negotiated down to TLS 1.1 or below) that do not
perform the sentinel downgrade check; a forced downgrade of such a client is
instead caught by the server via the generic handshake-integrity failure, the
server reporting the bad-handshake-hash error and the client the
decrypt-error alert, a different failure class from the sentinel-detected
malformed-hello class. -/
theorem legacy_max_client_skips_sentinel (client server : EndpointConfig)
    (v : Nat)
    (hcv : validRange client.range = true) (hsv : validRange server.range = true)
    (hceil : client.downgradeCheckVersion = none)
    (hmaxlow : client.range.max ≤ SSL_LIBRARY_VERSION_TLS_1_1)
    (hk : isKnownVersion v = true)
    (hcmin : client.range.min ≤ v) (hcmax : v < client.range.max)
    (hsmin : server.range.min ≤ v) (hsmax : v ≤ server.range.max) :
    connectWithRewrite client server (some v) =
      .bothAbort .SSL_ERROR_DECRYPT_ERROR_ALERT
        .SSL_ERROR_BAD_HANDSHAKE_HASH_VALUE := by
  have hsel : serverSelectVersion server.range v = .ok v := by
    rw [serverSelect_ok server.range v hk hsmin, Nat.min_eq_right hsmax]
  have hacc : clientAcceptVersion client.range v = .ok v :=
    clientAccept_ok _ _ hk hcmin (Nat.le_of_lt hcmax)
  have hnogate : ¬ (sentinelAwareThreshold ≤ client.range.max ∧
      downgradeSentinelCheck client.range v
        (downgradeSentinelEncode server.range.max v) = .Mismatched) := by
    rintro ⟨hgate, -⟩
    simp only [sentinelAwareThreshold, SSL_LIBRARY_VERSION_TLS_1_2] at hgate
    simp only [SSL_LIBRARY_VERSION_TLS_1_1] at hmaxlow
    omega
  rw [connect_some_reduces client server v v hsel hacc, hceil]
  rw [if_neg hnogate, if_neg (by simp [fallbackCeilingViolated]),
    if_pos (by omega)]

/-- C4 amended witness: the TestDowngradeDetectionToTls10 scenario, a client
configured [TLS 1.0, TLS 1.1] and a server configured [TLS 1.0, TLS 1.2] with
the offer rewritten to TLS 1.0. -/
theorem legacy_max_client_skips_sentinel_witness :
    connectWithRewrite
        ⟨⟨SSL_LIBRARY_VERSION_TLS_1_0, SSL_LIBRARY_VERSION_TLS_1_1⟩, none⟩
        ⟨⟨SSL_LIBRARY_VERSION_TLS_1_0, SSL_LIBRARY_VERSION_TLS_1_2⟩, none⟩
        (some SSL_LIBRARY_VERSION_TLS_1_0) =
      .bothAbort .SSL_ERROR_DECRYPT_ERROR_ALERT
        .SSL_ERROR_BAD_HANDSHAKE_HASH_VALUE :=
  legacy_max_client_skips_sentinel _ _ _ (by decide) (by decide) rfl
    (by decide) (by decide) (by decide) (by decide) (by decide) (by decide)

/-- C5 counterexample: a renegotiation from TLS 1.0 that resolves to TLS 1.3
(both ranges [TLS 1.0, TLS 1.3]) fails with the client seeing the unexpected
handshake alert and the server raising RenegotiationNotAllowed, exactly as
ConnectTls10AndServerRenegotiateHigher and
ConnectTls10AndClientRenegotiateHigher expect for test_version TLS 1.3, so
neither side, whichever initiated, sees UnsupportedVersion or the
illegal-parameter alert as the claim states. -/
theorem reneg_into_tls13_error_codes_cex :
    renegotiateHandshake SSL_LIBRARY_VERSION_TLS_1_0
        ⟨SSL_LIBRARY_VERSION_TLS_1_0, SSL_LIBRARY_VERSION_TLS_1_3⟩
        ⟨SSL_LIBRARY_VERSION_TLS_1_0, SSL_LIBRARY_VERSION_TLS_1_3⟩ =
      .renegFailed .SSL_ERROR_HANDSHAKE_UNEXPECTED_ALERT
        .SSL_ERROR_RENEGOTIATION_NOT_ALLOWED ∧
    renegotiateHandshake SSL_LIBRARY_VERSION_TLS_1_0
        ⟨SSL_LIBRARY_VERSION_TLS_1_0, SSL_LIBRARY_VERSION_TLS_1_3⟩
        ⟨SSL_LIBRARY_VERSION_TLS_1_0, SSL_LIBRARY_VERSION_TLS_1_3⟩ ≠
      .renegFailed .SSL_ERROR_UNSUPPORTED_VERSION
        .SSL_ERROR_ILLEGAL_PARAMETER_ALERT ∧
    renegotiateHandshake SSL_LIBRARY_VERSION_TLS_1_0
        ⟨SSL_LIBRARY_VERSION_TLS_1_0, SSL_LIBRARY_VERSION_TLS_1_3⟩
        ⟨SSL_LIBRARY_VERSION_TLS_1_0, SSL_LIBRARY_VERSION_TLS_1_3⟩ ≠
      .renegFailed .SSL_ERROR_ILLEGAL_PARAMETER_ALERT
        .SSL_ERROR_UNSUPPORTED_VERSION := by
  decide

/-- C5 amended: a renegotiation on a connection initially below TLS 1.3
re-runs the full version negotiation against the new offer; if the newly
negotiated version would be TLS 1.3 or higher, the attempt fails with the
server raising RenegotiationNotAllowed and the client seeing the unexpected
handshake alert, regardless of which side initiated; if it would be a higher
version still below TLS 1.3, the attempt fails with the client seeing
UnsupportedVersion and the server the fatal illegal-parameter alert; a
renegotiation resolving to the same or a lower version succeeds. -/
theorem renegotiation_version_rules (origVersion : Nat)
    (cr sr : VersionRange)
    (hcv : validRange cr = true) (hsv : validRange sr = true)
    (horig : origVersion < SSL_LIBRARY_VERSION_TLS_1_3)
    (hoverlap : sr.min ≤ cr.max) :
    (SSL_LIBRARY_VERSION_TLS_1_3 ≤ min sr.max cr.max →
      renegotiateHandshake origVersion cr sr =
        .renegFailed .SSL_ERROR_HANDSHAKE_UNEXPECTED_ALERT
          .SSL_ERROR_RENEGOTIATION_NOT_ALLOWED) ∧
    (origVersion < min sr.max cr.max →
      min sr.max cr.max < SSL_LIBRARY_VERSION_TLS_1_3 →
      renegotiateHandshake origVersion cr sr =
        .renegFailed .SSL_ERROR_UNSUPPORTED_VERSION
          .SSL_ERROR_ILLEGAL_PARAMETER_ALERT) ∧
    (min sr.max cr.max ≤ origVersion →
      renegotiateHandshake origVersion cr sr =
        .renegotiated (min sr.max cr.max)) := by
  obtain ⟨hcr, hcmink, hcmaxk⟩ := validRange_spec _ hcv
  have hsel := serverSelect_ok sr cr.max hcmaxk hoverlap
  refine ⟨fun h13 => ?_, fun hup hbelow => ?_, fun hsame => ?_⟩
  · simp only [renegotiateHandshake, hsel]
    rw [if_pos h13]
  · simp only [renegotiateHandshake, hsel]
    rw [if_neg (by omega), if_pos hup]
  · simp only [renegotiateHandshake, hsel]
    rw [if_neg (by omega), if_neg (by omega)]

/-- C5 amended witness: renegotiating from TLS 1.0 with both ranges
[TLS 1.0, TLS 1.2] resolves to the higher version TLS 1.2 (below TLS 1.3)
and fails with UnsupportedVersion on the client and the illegal-parameter
alert on the server, while renegotiating from TLS 1.2 down to a server range
of [TLS 1.0, TLS 1.0] resolves to the lower version TLS 1.0 and succeeds. -/
theorem renegotiation_version_rules_witness :
    renegotiateHandshake SSL_LIBRARY_VERSION_TLS_1_0
        ⟨SSL_LIBRARY_VERSION_TLS_1_0, SSL_LIBRARY_VERSION_TLS_1_2⟩
        ⟨SSL_LIBRARY_VERSION_TLS_1_0, SSL_LIBRARY_VERSION_TLS_1_2⟩ =
      .renegFailed .SSL_ERROR_UNSUPPORTED_VERSION
        .SSL_ERROR_ILLEGAL_PARAMETER_ALERT ∧
    renegotiateHandshake SSL_LIBRARY_VERSION_TLS_1_2
        ⟨SSL_LIBRARY_VERSION_TLS_1_0, SSL_LIBRARY_VERSION_TLS_1_2⟩
        ⟨SSL_LIBRARY_VERSION_TLS_1_0, SSL_LIBRARY_VERSION_TLS_1_0⟩ =
      .renegotiated SSL_LIBRARY_VERSION_TLS_1_0 :=
  ⟨(renegotiation_version_rules _ _ _ (by decide) (by decide) (by decide)
      (by decide)).2.1 (by decide) (by decide),
   (renegotiation_version_rules _ _ _ (by decide) (by decide) (by decide)
      (by decide)).2.2 (by decide)⟩

/-- C6 counterexample: in the TestDtlsVersion11 scenario (the offered version
rewritten to the bogus value 0xfefe, the bitwise complement of 0x0101), the
initiator (client) records the no-cipher-overlap error and the responder
(server) records UnsupportedVersion, the opposite assignment from the claim,
which has the responder failing with the NoCipherOverlap-class error and the
initiator with UnsupportedVersion. -/
theorem bogus_version_error_codes_cex :
    connectWithRewrite
        ⟨⟨SSL_LIBRARY_VERSION_TLS_1_0, SSL_LIBRARY_VERSION_TLS_1_3⟩, none⟩
        ⟨⟨SSL_LIBRARY_VERSION_TLS_1_0, SSL_LIBRARY_VERSION_TLS_1_3⟩, none⟩
        (some 0xfefe) =
      .bothAbort .SSL_ERROR_NO_CYPHER_OVERLAP
        .SSL_ERROR_UNSUPPORTED_VERSION ∧
    connectWithRewrite
        ⟨⟨SSL_LIBRARY_VERSION_TLS_1_0, SSL_LIBRARY_VERSION_TLS_1_3⟩, none⟩
        ⟨⟨SSL_LIBRARY_VERSION_TLS_1_0, SSL_LIBRARY_VERSION_TLS_1_3⟩, none⟩
        (some 0xfefe) ≠
      .bothAbort .SSL_ERROR_UNSUPPORTED_VERSION
        .SSL_ERROR_NO_CYPHER_OVERLAP := by
  decide

/-- C6 amended: when the offered version field is rewritten to a bit pattern
that is no known ProtocolVersion, the responder (server) fails with
UnsupportedVersion and the initiator (client) independently fails with the
NoCipherOverlap-class error; neither side silently clamps the value or
proceeds, for every client and server configuration. -/
theorem bogus_version_both_sides_fail (client server : EndpointConfig)
    (v : Nat) (hk : isKnownVersion v = false) :
    connectWithRewrite client server (some v) =
      .bothAbort .SSL_ERROR_NO_CYPHER_OVERLAP
        .SSL_ERROR_UNSUPPORTED_VERSION := by
  unfold connectWithRewrite serverSelectVersion
  simp [hk]

/-- C6 amended witness: the TestDtlsVersion11 rewrite value 0xfefe. -/
theorem bogus_version_both_sides_fail_witness :
    connectWithRewrite
        ⟨⟨SSL_LIBRARY_VERSION_TLS_1_0, SSL_LIBRARY_VERSION_TLS_1_3⟩, none⟩
        ⟨⟨SSL_LIBRARY_VERSION_TLS_1_0, SSL_LIBRARY_VERSION_TLS_1_3⟩, none⟩
        (some 0xfefe) =
      .bothAbort .SSL_ERROR_NO_CYPHER_OVERLAP
        .SSL_ERROR_UNSUPPORTED_VERSION :=
  bogus_version_both_sides_fail _ _ _ (by decide)

/-- C7: for every pair of valid client and server ranges with non-empty
intersection and no fallback ceiling configured, the connection succeeds and
the negotiated version is the highest version of the intersection: it lies in
both ranges and dominates every version lying in both ranges. -/
theorem nonempty_intersection_highest (client server : EndpointConfig)
    (hcv : validRange client.range = true) (hsv : validRange server.range = true)
    (hceil : client.downgradeCheckVersion = none)
    (h1 : server.range.min ≤ client.range.max)
    (h2 : client.range.min ≤ server.range.max) :
    connectWithRewrite client server none =
      .connected (min server.range.max client.range.max) ∧
    inRange client.range (min server.range.max client.range.max) ∧
    inRange server.range (min server.range.max client.range.max) ∧
    ∀ w, inRange client.range w → inRange server.range w →
      w ≤ min server.range.max client.range.max := by
  obtain ⟨hcr, hcmink, hcmaxk⟩ := validRange_spec _ hcv
  obtain ⟨hsr, hsmink, hsmaxk⟩ := validRange_spec _ hsv
  have hkmin : isKnownVersion (min server.range.max client.range.max) = true := by
    rcases Nat.le_total server.range.max client.range.max with h | h
    · rwa [Nat.min_eq_left h]
    · rwa [Nat.min_eq_right h]
  have hsel := serverSelect_ok server.range client.range.max hcmaxk h1
  have hacc := clientAccept_ok client.range
    (min server.range.max client.range.max) hkmin (by omega) (by omega)
  simp only [inRange]
  refine ⟨?_, ⟨by omega, by omega⟩, ⟨by omega, by omega⟩,
    fun w hw1 hw2 => by omega⟩
  rw [connect_none_reduces client server _ hsel hacc, hceil]
  rw [if_neg (fun hh => honest_sentinel_ok client.range server.range hh.2),
    if_neg (by simp [fallbackCeilingViolated])]

/-- C7 witness: the ServerNegotiateTls10 scenario, client [TLS 1.0, TLS 1.3]
and server [TLS 1.0, TLS 1.0], connecting at TLS 1.0, the highest common
version. -/
theorem nonempty_intersection_highest_witness :
    connectWithRewrite
        ⟨⟨SSL_LIBRARY_VERSION_TLS_1_0, SSL_LIBRARY_VERSION_TLS_1_3⟩, none⟩
        ⟨⟨SSL_LIBRARY_VERSION_TLS_1_0, SSL_LIBRARY_VERSION_TLS_1_0⟩, none⟩
        none =
      .connected SSL_LIBRARY_VERSION_TLS_1_0 :=
  (nonempty_intersection_highest _ _ (by decide) (by decide) rfl (by decide)
    (by decide)).1

/-- C8: a client configured with an out-of-band fallback-detection ceiling
aborts, in the same malformed-server-hello way as a sentinel mismatch, any
connection whose negotiated version is strictly below the ceiling while the
peer range could have reached the ceiling. -/
theorem fallback_ceiling_detected (client server : EndpointConfig) (c : Nat)
    (hcv : validRange client.range = true) (hsv : validRange server.range = true)
    (hceil : client.downgradeCheckVersion = some c)
    (h1 : server.range.min ≤ client.range.max)
    (h2 : client.range.min ≤ server.range.max)
    (hlow : min server.range.max client.range.max < c)
    (hreach : c ≤ server.range.max) :
    connectWithRewrite client server none =
      .clientAbort .SSL_ERROR_RX_MALFORMED_SERVER_HELLO := by
  obtain ⟨hcr, hcmink, hcmaxk⟩ := validRange_spec _ hcv
  obtain ⟨hsr, hsmink, hsmaxk⟩ := validRange_spec _ hsv
  have hkmin : isKnownVersion (min server.range.max client.range.max) = true := by
    rcases Nat.le_total server.range.max client.range.max with h | h
    · rwa [Nat.min_eq_left h]
    · rwa [Nat.min_eq_right h]
  have hsel := serverSelect_ok server.range client.range.max hcmaxk h1
  have hacc := clientAccept_ok client.range
    (min server.range.max client.range.max) hkmin (by omega) (by omega)
  rw [connect_none_reduces client server _ hsel hacc, hceil]
  rw [if_neg (fun hh => honest_sentinel_ok client.range server.range hh.2),
    if_pos (by simp [fallbackCeilingViolated]; omega)]

/-- C8 witness: the TestFallbackFromTls12 scenario, a client pinned to
[TLS 1.1, TLS 1.1] with ceiling TLS 1.2 against a server [TLS 1.1, TLS 1.2]:
the connection negotiates TLS 1.1, below the reachable ceiling, and dies as a
malformed ServerHello on the client. -/
theorem fallback_ceiling_detected_witness :
    connectWithRewrite
        ⟨⟨SSL_LIBRARY_VERSION_TLS_1_1, SSL_LIBRARY_VERSION_TLS_1_1⟩,
          some SSL_LIBRARY_VERSION_TLS_1_2⟩
        ⟨⟨SSL_LIBRARY_VERSION_TLS_1_1, SSL_LIBRARY_VERSION_TLS_1_2⟩, none⟩
        none =
      .clientAbort .SSL_ERROR_RX_MALFORMED_SERVER_HELLO :=
  fallback_ceiling_detected _ _ _ (by decide) (by decide) rfl (by decide)
    (by decide) (by decide) (by decide)

/-- C9: for every pair of valid ranges with empty intersection, negotiation
fails with NoCipherOverlap or UnsupportedVersion, and the failure is atomic:
the failing endpoint gets back its HandshakeContext entirely unmodified, with
negotiated still unset.  Either the server rejects the offer outright with
NoCipherOverlap, or the server selects its own maximum and the client then
rejects that selection with UnsupportedVersion. -/
theorem empty_intersection_atomic_failure (cr sr : VersionRange)
    (hcv : validRange cr = true) (hsv : validRange sr = true)
    (hempty : cr.max < sr.min ∨ sr.max < cr.min) :
    negotiateStep ⟨sr, .Server, none, .NotNegotiated⟩ cr.max =
        (⟨sr, .Server, none, .NotNegotiated⟩, some .NoCipherOverlap) ∨
    (negotiateStep ⟨sr, .Server, none, .NotNegotiated⟩ cr.max =
        (⟨sr, .Server, some sr.max, .NotNegotiated⟩, none) ∧
      negotiateStep ⟨cr, .Client, none, .NotNegotiated⟩ sr.max =
        (⟨cr, .Client, none, .NotNegotiated⟩, some .UnsupportedVersion)) := by
  obtain ⟨hcr, hcmink, hcmaxk⟩ := validRange_spec _ hcv
  obtain ⟨hsr, hsmink, hsmaxk⟩ := validRange_spec _ hsv
  rcases hempty with h | h
  · left
    have hlow := serverSelect_low sr cr.max hcmaxk h
    simp [negotiateStep, hlow]
  · right
    have hsel : serverSelectVersion sr cr.max = .ok sr.max := by
      rw [serverSelect_ok sr cr.max hcmaxk (by omega),
        Nat.min_eq_left (by omega)]
    have hacc : clientAcceptVersion cr sr.max = .error .UnsupportedVersion := by
      refine clientAccept_out cr sr.max ?_
      rintro ⟨-, h1, -⟩
      omega
    exact ⟨by simp [negotiateStep, hsel], by simp [negotiateStep, hacc]⟩

/-- C9 witness: client range [TLS 1.0, TLS 1.1] against server range
[TLS 1.2, TLS 1.3], an empty intersection: the server rejects the TLS 1.1
offer with NoCipherOverlap and its context is unchanged. -/
theorem empty_intersection_atomic_failure_witness :
    negotiateStep ⟨⟨SSL_LIBRARY_VERSION_TLS_1_2, SSL_LIBRARY_VERSION_TLS_1_3⟩,
        .Server, none, .NotNegotiated⟩ SSL_LIBRARY_VERSION_TLS_1_1 =
      (⟨⟨SSL_LIBRARY_VERSION_TLS_1_2, SSL_LIBRARY_VERSION_TLS_1_3⟩, .Server,
        none, .NotNegotiated⟩, some .NoCipherOverlap) ∨
    (negotiateStep ⟨⟨SSL_LIBRARY_VERSION_TLS_1_2, SSL_LIBRARY_VERSION_TLS_1_3⟩,
        .Server, none, .NotNegotiated⟩ SSL_LIBRARY_VERSION_TLS_1_1 =
      (⟨⟨SSL_LIBRARY_VERSION_TLS_1_2, SSL_LIBRARY_VERSION_TLS_1_3⟩, .Server,
        some SSL_LIBRARY_VERSION_TLS_1_3, .NotNegotiated⟩, none) ∧
      negotiateStep ⟨⟨SSL_LIBRARY_VERSION_TLS_1_0, SSL_LIBRARY_VERSION_TLS_1_1⟩,
        .Client, none, .NotNegotiated⟩ SSL_LIBRARY_VERSION_TLS_1_3 =
      (⟨⟨SSL_LIBRARY_VERSION_TLS_1_0, SSL_LIBRARY_VERSION_TLS_1_1⟩, .Client,
        none, .NotNegotiated⟩, some .UnsupportedVersion)) :=
  empty_intersection_atomic_failure
    ⟨SSL_LIBRARY_VERSION_TLS_1_0, SSL_LIBRARY_VERSION_TLS_1_1⟩
    ⟨SSL_LIBRARY_VERSION_TLS_1_2, SSL_LIBRARY_VERSION_TLS_1_3⟩
    (by decide) (by decide) (Or.inl (by decide))

/-- C10: whether the client performs the sentinel downgrade check is
determined by its configured maximum version, not by the version actually
negotiated.  For a downgrade to TLS 1.1 or below: a client whose configured
maximum reaches the sentinel-aware threshold (with the sentinel naming a
version inside its range) detects it and aborts with the
malformed-server-hello error, while a client whose configured maximum is
TLS 1.1 or below performs no sentinel check and the same downgrade is caught
only by the server handshake-hash failure. -/
theorem sentinel_gate_is_configured_max (client server : EndpointConfig)
    (v : Nat)
    (hcv : validRange client.range = true) (hsv : validRange server.range = true)
    (hceil : client.downgradeCheckVersion = none)
    (hk : isKnownVersion v = true)
    (hvlo : SSL_LIBRARY_VERSION_TLS_1_0 ≤ v)
    (hvhi : v ≤ SSL_LIBRARY_VERSION_TLS_1_1)
    (hcmin : client.range.min ≤ v) (hsmin : server.range.min ≤ v)
    (hcmax : v < client.range.max) (hsmax : v < server.range.max) :
    (sentinelAwareThreshold ≤ client.range.max →
      server.range.max ≤ client.range.max →
      connectWithRewrite client server (some v) =
        .clientAbort .SSL_ERROR_RX_MALFORMED_SERVER_HELLO) ∧
    (client.range.max ≤ SSL_LIBRARY_VERSION_TLS_1_1 →
      connectWithRewrite client server (some v) =
        .bothAbort .SSL_ERROR_DECRYPT_ERROR_ALERT
          .SSL_ERROR_BAD_HANDSHAKE_HASH_VALUE) := by
  obtain ⟨hsr, hsmink, hsmaxk⟩ := validRange_spec _ hsv
  have hsel : serverSelectVersion server.range v = .ok v := by
    rw [serverSelect_ok server.range v hk hsmin,
      Nat.min_eq_right (Nat.le_of_lt hsmax)]
  have hacc : clientAcceptVersion client.range v = .ok v :=
    clientAccept_ok _ _ hk hcmin (Nat.le_of_lt hcmax)
  have henc : downgradeSentinelEncode server.range.max v =
      some server.range.max := by
    unfold downgradeSentinelEncode
    exact if_pos ⟨hsmax, known_above_tls10 _ hsmaxk (by omega)⟩
  constructor
  · intro hgate hsmaxle
    have hcheck : downgradeSentinelCheck client.range v
        (some server.range.max) = .Mismatched := by
      simp only [downgradeSentinelCheck]
      exact if_pos ⟨hsmax, by omega, hsmaxle⟩
    rw [connect_some_reduces client server v v hsel hacc, henc,
      if_pos ⟨hgate, hcheck⟩]
  · intro hlow
    have hnogate : ¬ (sentinelAwareThreshold ≤ client.range.max ∧
        downgradeSentinelCheck client.range v
          (downgradeSentinelEncode server.range.max v) = .Mismatched) := by
      rintro ⟨hgate, -⟩
      simp only [sentinelAwareThreshold, SSL_LIBRARY_VERSION_TLS_1_2] at hgate
      simp only [SSL_LIBRARY_VERSION_TLS_1_1] at hlow
      omega
    rw [connect_some_reduces client server v v hsel hacc, hceil]
    rw [if_neg hnogate, if_neg (by simp [fallbackCeilingViolated]),
      if_pos (by omega)]

/-- C10 witness: the two downgrade-detection scenarios side by side.  A
client with configured maximum TLS 1.3 downgraded to TLS 1.1 fails through
the sentinel check with the malformed-server-hello error
(TestDowngradeDetectionToTls11), while a client with configured maximum
TLS 1.1 downgraded to TLS 1.0 fails only through the server handshake-hash
failure (TestDowngradeDetectionToTls10). -/
theorem sentinel_gate_is_configured_max_witness :
    connectWithRewrite
        ⟨⟨SSL_LIBRARY_VERSION_TLS_1_0, SSL_LIBRARY_VERSION_TLS_1_3⟩, none⟩
        ⟨⟨SSL_LIBRARY_VERSION_TLS_1_0, SSL_LIBRARY_VERSION_TLS_1_3⟩, none⟩
        (some SSL_LIBRARY_VERSION_TLS_1_1) =
      .clientAbort .SSL_ERROR_RX_MALFORMED_SERVER_HELLO ∧
    connectWithRewrite
        ⟨⟨SSL_LIBRARY_VERSION_TLS_1_0, SSL_LIBRARY_VERSION_TLS_1_1⟩, none⟩
        ⟨⟨SSL_LIBRARY_VERSION_TLS_1_0, SSL_LIBRARY_VERSION_TLS_1_2⟩, none⟩
        (some SSL_LIBRARY_VERSION_TLS_1_0) =
      .bothAbort .SSL_ERROR_DECRYPT_ERROR_ALERT
        .SSL_ERROR_BAD_HANDSHAKE_HASH_VALUE :=
  ⟨(sentinel_gate_is_configured_max _ _ _ (by decide) (by decide) rfl
      (by decide) (by decide) (by decide) (by decide) (by decide) (by decide)
      (by decide)).1 (by decide) (by decide),
   (sentinel_gate_is_configured_max _ _ _ (by decide) (by decide) rfl
      (by decide) (by decide) (by decide) (by decide) (by decide) (by decide)
      (by decide)).2 (by decide)⟩

end NssVersion
